import Mathlib

/-!
Verification development for the next-rate-limit middleware.

The definitions below are a shallow embedding of the repository's
rate-limiting code:

* `TokenData`, `Cache`, `cacheGet`, `cacheSet`, `bumpAt` model the
  `lru-cache` instance created in the TypeScript file (`max := limit`,
  `ttl := window * 1000`, `ttlAutopurge`): entries live in a list ordered
  by recency (most-recently-used first), `get` refreshes recency and
  drops a stale entry, `set` inserts at the front and evicts the
  least-recently-used entry when the size would exceed `max`, and an
  entry is stale once `start + ttl ≤ now` (the library's staleness test,
  with `ttl = 0` meaning "no expiry").
* `checkRateLimit` is the local counter check from the TypeScript file:
  fetch the entry (or create `{count := 0, reset := now + window}` and
  store it), increment `count` in place, succeed iff the new count is at
  most `limit`, report `remaining` and `reset = ceil(storedReset/1000)`.

Times are naturals (epoch milliseconds), machine numbers are modelled as
`Nat` (all the quantities involved are non-negative counters and
timestamps; JavaScript subtraction that can go negative is done in `Int`
where it occurs).
-/

structure TokenData where
  count : Nat
  reset : Nat
  start : Nat
deriving Repr, DecidableEq

structure Cache where
  max : Nat
  ttl : Nat
  entries : List (String × TokenData)
deriving Repr, DecidableEq

/-- Association-list lookup, first match wins (keys are unique in reachable
caches, mirroring the JavaScript `Map` underlying `lru-cache`). -/
def lookupEntry (entries : List (String × TokenData)) (k : String) : Option TokenData :=
  (entries.find? (fun p => p.1 == k)).map Prod.snd

/-- `lru-cache` `get`: a hit moves the entry to the most-recently-used
position; a stale hit (`start + ttl ≤ now`, with `ttl ≠ 0`) deletes the
entry and reports a miss. -/
def cacheGet (c : Cache) (k : String) (now : Nat) : Option TokenData × Cache :=
  match lookupEntry c.entries k with
  | none => (none, c)
  | some d =>
      if c.ttl ≠ 0 ∧ d.start + c.ttl ≤ now then
        (none, { c with entries := c.entries.filter (fun p => p.1 != k) })
      else
        (some d, { c with entries := (k, d) :: c.entries.filter (fun p => p.1 != k) })

/-- `lru-cache` `set`: insert/update at the most-recently-used position and
evict the least-recently-used entry when the size exceeds `max`. -/
def cacheSet (c : Cache) (k : String) (d : TokenData) : Cache :=
  let entries := (k, d) :: c.entries.filter (fun p => p.1 != k)
  { c with entries := if c.max < entries.length then entries.dropLast else entries }

/-- The in-place `tokenData.count += 1` of `checkRateLimit`: the object held
by the cache is mutated, so the stored entry's count changes without a `set`
(and hence without refreshing its ttl `start`). -/
def bumpAt (c : Cache) (k : String) : Cache :=
  { c with entries :=
      c.entries.map (fun p => if p.1 == k then (p.1, { p.2 with count := p.2.count + 1 }) else p) }

/-- `checkRateLimit(identifier, limit, window)` from the TypeScript file,
with the call time `now` explicit. Returns `((success, remaining, reset),
updated cache)`. `reset` is reported as `Math.ceil(stored.reset / 1000)`,
i.e. `(stored.reset + 999) / 1000` in natural division. Note the stored
`reset` field of a fresh entry is `now + window`: epoch milliseconds plus a
seconds quantity, exactly as in the source. -/
def checkRateLimit (c : Cache) (identifier : String) (limit window now : Nat) :
    (Bool × Nat × Nat) × Cache :=
  let g := cacheGet c identifier now
  let fresh : TokenData := { count := 0, reset := now + window, start := now }
  let d :=
    match g.1 with
    | none => fresh
    | some d => d
  let c2 :=
    match g.1 with
    | none => cacheSet g.2 identifier fresh
    | some _ => g.2
  let c3 := bumpAt c2 identifier
  let currentUsage := d.count + 1
  let success := decide (currentUsage ≤ limit)
  let remaining := if currentUsage ≤ limit then limit - currentUsage else 0
  let reset := (d.reset + 999) / 1000
  ((success, remaining, reset), c3)

/-- The empty cache the TypeScript `new LRUCache({max: limit, ttl: window * 1000})`
constructs. -/
def emptyCache (limit window : Nat) : Cache :=
  { max := limit, ttl := window * 1000, entries := [] }

/-- A cache holding exactly one tracked key with count `i`, as reached after
`i` in-window calls on a fresh key first seen at time `t0`. -/
def singletonState (k : String) (limit window t0 i : Nat) : Cache :=
  { max := limit, ttl := window * 1000,
    entries := [(k, { count := i, reset := t0 + window, start := t0 })] }

/-- Run `checkRateLimit` once per listed call time, threading the cache. -/
def runCalls (k : String) (limit window : Nat) : List Nat → Cache → List (Bool × Nat × Nat) × Cache
  | [], c => ([], c)
  | t :: ts, c =>
      let r := checkRateLimit c k limit window t
      let rest := runCalls k limit window ts r.2
      (r.1 :: rest.1, rest.2)

/-- The results the counter produces for calls numbered `i+1, i+2, ...` on a
single in-window key: call number `n` succeeds iff `n ≤ limit`, with
`remaining = limit - n` on success and `0` on failure. -/
def expectedResults (limit window t0 i : Nat) : Nat → List (Bool × Nat × Nat)
  | 0 => []
  | n + 1 =>
      (decide (i + 1 ≤ limit), if i + 1 ≤ limit then limit - (i + 1) else 0,
        (t0 + window + 999) / 1000)
      :: expectedResults limit window t0 (i + 1) n

def defaultRes : Bool × Nat × Nat := (false, 0, 0)

/-- Concrete one-slot cache at capacity, for the C5 witness. -/
def cW : Cache :=
  { max := 1, ttl := 1000, entries := [("b", { count := 1, reset := 5, start := 0 })] }

/-!
Model of the exported `rateLimit` function of the TypeScript file and its
helpers. JavaScript truthiness on optional strings (absent or empty means
falsy) is `optTruthy`, and the `a || b` operator on such values is `jsOr`.
-/

def optTruthy : Option String → Bool
  | none => false
  | some s => decide (s ≠ "")

def jsOr (a b : Option String) : Option String :=
  match a with
  | some s => if s = "" then b else some s
  | none => b

/-- JavaScript `s.split(',')` on the underlying character list: split at every
comma, keeping empty segments; never returns an empty list. -/
def jsSplitComma : List Char → List (List Char)
  | [] => [[]]
  | c :: cs =>
      let rest := jsSplitComma cs
      if c = ',' then [] :: rest
      else
        match rest with
        | [] => [[c]]
        | r :: rs => (c :: r) :: rs

/-- JavaScript `s.trim()`: strip leading and trailing whitespace. -/
def trimChars (s : List Char) : List Char :=
  ((s.dropWhile Char.isWhitespace).reverse.dropWhile Char.isWhitespace).reverse

/-- `xff?.split(',').pop()?.trim()`: the last entry of the comma-separated
forwarded-for list, trimmed (`split` never yields an empty list). -/
def lastForwarded (xff : Option String) : Option String :=
  xff.map (fun s => String.mk (trimChars ((jsSplitComma s.data).getLastD [])))

/-- The fields of an `IncomingMessage` (`req`) the code reads. -/
structure ReqModel where
  xff : Option String
  remoteAddress : Option String
deriving DecidableEq

/-- The fields of a fetch-style `Request` (`request`) the code reads. -/
structure RequestModel where
  xff : Option String
  ip : Option String
  xRealIp : Option String
  xClientIp : Option String
deriving DecidableEq

/-- Lines 104-110: `identifier = identifier || xff.pop().trim() || ...`,
first over `req` (socket remote address fallback), then over `request`
(`request.ip`, `x-real-ip`, `x-client-ip` fallbacks), each chain ending in
the loopback placeholder. -/
def resolveIdentifier (identifier : Option String) (req : Option ReqModel)
    (request : Option RequestModel) : Option String :=
  let id1 :=
    match req with
    | some r =>
        jsOr identifier (jsOr (lastForwarded r.xff) (jsOr r.remoteAddress (some "127.0.0.1")))
    | none => identifier
  match request with
  | some r =>
      jsOr id1 (jsOr (lastForwarded r.xff)
        (jsOr r.ip (jsOr r.xRealIp (jsOr r.xClientIp (some "127.0.0.1")))))
  | none => id1

structure UpstashConfig where
  enabled : Bool
  url : Option String
  token : Option String
  sliding : Bool
  analytics : Bool
deriving DecidableEq, Repr

structure Config where
  limit : Nat
  window : Nat
  upstash : UpstashConfig
deriving DecidableEq, Repr

/-- The module-level mutable state: `currentConfig`, `tokenCache`, and the
`redis`/`ratelimit` pair. Object construction is observed through generation
counters: `cacheGen` counts `new LRUCache(...)` constructions and
`sharedGen` counts constructions of the `Redis`/`Ratelimit` pair, so "the
component was reconstructed" is "its generation advanced". -/
structure GlobalState where
  currentConfig : Option Config
  cache : Cache
  cacheGen : Nat
  sharedGen : Nat
deriving DecidableEq, Repr

/-- The guard `upstash.enabled && upstash.url && upstash.token` (appears both
in the module initialization and before the Upstash check). -/
def upstashActive (u : UpstashConfig) : Bool :=
  u.enabled && optTruthy u.url && optTruthy u.token

/-- The module initialization function (lines 11-44): when the assembled
configuration differs from `currentConfig` (the `JSON.stringify` comparison,
rendered as structural equality since the config objects are assembled with
a fixed field order), store it, construct a fresh LRU cache with
`max = limit` and `ttl = window * 1000`, and, only when the Upstash guard
holds, construct a fresh `Redis`/`Ratelimit` pair. -/
def reinitIfChanged (cfg : Config) (st : GlobalState) : GlobalState :=
  if some cfg = st.currentConfig then st
  else
    { currentConfig := some cfg,
      cache := emptyCache cfg.limit cfg.window,
      cacheGen := st.cacheGen + 1,
      sharedGen := if upstashActive cfg.upstash then st.sharedGen + 1 else st.sharedGen }

/-- The value `await ratelimit.limit(identifier)` resolves to (the shared
backend's verdict); supplied to the model as an oracle since it is a network
call. Its `reset` is an epoch-millisecond timestamp. -/
structure UpstashResult where
  success : Bool
  remaining : Nat
  reset : Nat
deriving DecidableEq, Repr

/-- The observable parts of `RateLimitResponse`: `success`, `remaining`,
`reset`, and whether the 429 `rateLimitedResponse` path was taken. -/
structure RLResult where
  success : Bool
  remaining : Nat
  reset : Nat
  rateLimited : Bool
deriving DecidableEq, Repr

/-- Outcome of one `rateLimit` invocation: the returned (or thrown) result,
the module state afterwards, and whether the shared Upstash backend was
consulted. -/
structure RLOutcome where
  result : Except String RLResult
  state : GlobalState
  sharedConsulted : Bool

/-- Lines 113-114: `upstash.url = upstash.url || process.env...` (same for
the token). -/
def effectiveUpstash (u : UpstashConfig) (envUrl envToken : Option String) : UpstashConfig :=
  { u with url := jsOr u.url envUrl, token := jsOr u.token envToken }

/-- The exported `rateLimit` function (lines 91-191): throw when neither
request object nor identifier is supplied; resolve the identifier; merge env
defaults into the Upstash config; (re)initialize module state; run the local
LRU check; on local rejection return the 429 result without consulting
Upstash; otherwise, when the Upstash guard holds, consult the shared backend,
merge (`reset := max(local, ceil(shared/1000))`, `remaining := min`,
`success := shared.success`), write the merged values back to the LRU cache,
and return; otherwise return the local result. -/
def rateLimit (request : Option RequestModel) (req : Option ReqModel)
    (identifier : Option String) (limit window : Nat) (upstash0 : UpstashConfig)
    (envUrl envToken : Option String) (st : GlobalState)
    (upstashResult : UpstashResult) (now : Nat) : RLOutcome :=
  if req = none ∧ request = none ∧ optTruthy identifier = false then
    { result := Except.error "Either Request or Identifier is Required",
      state := st, sharedConsulted := false }
  else
    let ident := (resolveIdentifier identifier req request).getD ""
    let upstash := effectiveUpstash upstash0 envUrl envToken
    let st1 := reinitIfChanged { limit := limit, window := window, upstash := upstash } st
    let lc := checkRateLimit st1.cache ident limit window now
    let st2 := { st1 with cache := lc.2 }
    if lc.1.1 = false then
      { result := Except.ok
          { success := false, remaining := lc.1.2.1, reset := lc.1.2.2, rateLimited := true },
        state := st2, sharedConsulted := false }
    else if upstashActive upstash then
      let reset2 := max lc.1.2.2 ((upstashResult.reset + 999) / 1000)
      let remaining2 := min lc.1.2.1 upstashResult.remaining
      let newCache := cacheSet st2.cache ident
        ({ count := limit - remaining2, reset := reset2, start := now })
      let st3 := { st2 with cache := newCache }
      if upstashResult.success = false then
        { result := Except.ok
            { success := false, remaining := remaining2, reset := reset2, rateLimited := true },
          state := st3, sharedConsulted := true }
      else
        { result := Except.ok
            { success := true, remaining := remaining2, reset := reset2, rateLimited := false },
          state := st3, sharedConsulted := true }
    else
      { result := Except.ok
          { success := true, remaining := lc.1.2.1, reset := lc.1.2.2, rateLimited := false },
        state := st2, sharedConsulted := false }

/-- The local check exactly as `rateLimit` performs it: `checkRateLimit` on
the (re)initialized cache with the resolved identifier. -/
def localOutcome (request : Option RequestModel) (req : Option ReqModel)
    (identifier : Option String) (limit window : Nat) (upstash0 : UpstashConfig)
    (envUrl envToken : Option String) (st : GlobalState) (now : Nat) :
    (Bool × Nat × Nat) × Cache :=
  checkRateLimit
    (reinitIfChanged
      { limit := limit, window := window,
        upstash := effectiveUpstash upstash0 envUrl envToken } st).cache
    ((resolveIdentifier identifier req request).getD "") limit window now

/-- Upstash configuration used by the C3/C2 witnesses: enabled with url and
token set. -/
def upsW : UpstashConfig :=
  { enabled := true, url := some "u", token := some "t", sliding := false, analytics := false }

def reqC : ReqModel := { xff := none, remoteAddress := some "9.9.9.9" }

/-- State for the C3 witness: active config `limit = 1`, and the key
`"9.9.9.9"` already at count 1, so the next local check rejects. -/
def stC : GlobalState :=
  { currentConfig := some { limit := 1, window := 1, upstash := upsW },
    cache := { max := 1, ttl := 1000, entries := [("9.9.9.9", { count := 1, reset := 500, start := 0 })] },
    cacheGen := 1, sharedGen := 1 }

def reqD : ReqModel := { xff := none, remoteAddress := some "8.8.8.8" }

/-- State for the C2 witness: active config `limit = 2`, empty cache, so the
local check admits the fresh key `"8.8.8.8"`. -/
def stD : GlobalState :=
  { currentConfig := some { limit := 2, window := 1, upstash := upsW },
    cache := emptyCache 2 1, cacheGen := 1, sharedGen := 1 }

/-- Previously active configuration for the C9 scenario: Upstash fully
configured. -/
def cfgA : Config :=
  { limit := 1, window := 1,
    upstash := { enabled := true, url := some "u", token := some "t",
                 sliding := false, analytics := false } }

/-- New configuration for the C9 scenario: different limit, Upstash
disabled. -/
def cfgB : Config :=
  { limit := 2, window := 1,
    upstash := { enabled := false, url := none, token := none,
                 sliding := false, analytics := false } }

/-- Module state in which `cfgA` is active. -/
def stA : GlobalState :=
  { currentConfig := some cfgA, cache := emptyCache 1 1, cacheGen := 1, sharedGen := 5 }

/-!
Models of the JavaScript middleware variants: the sliding-log
`handleRateLimiting` (timestamp list per key) and the fixed/refreshing-window
`handleRateLimiting` with its IP-then-session `rateLimit` wrapper. The
module-level `rateLimitMap` is a function from keys to stored values
(`Map.get`/`Map.set` on a specific key).
-/

namespace SlidingLog

def RateMap := String → List Nat

/-- The sliding-log `handleRateLimiting(key, limit, windowMs)`: drop
timestamps with `now - ts >= windowMs` (comparison in `Int`, as JavaScript
subtraction can be negative), store the filtered list, reject without
recording when `validTimestamps.length >= limit`, else append `now`.
Returns `true` when the limit is exceeded. -/
def handleRateLimiting (m : RateMap) (key : String) (limit windowMs now : Nat) :
    Bool × RateMap :=
  let timestamps := m key
  let validTimestamps := timestamps.filter
    (fun (ts : Nat) => decide ((now : Int) - (ts : Int) < (windowMs : Int)))
  if limit ≤ validTimestamps.length then
    (true, fun k => if k = key then validTimestamps else m k)
  else
    (false, fun k => if k = key then validTimestamps ++ [now] else m k)

end SlidingLog

namespace FixedWindow

/-- The per-key record `{count, lastReset}` of the fixed-window variant. -/
structure WindowRecord where
  count : Nat
  lastReset : Nat
deriving DecidableEq, Repr

def FWMap := String → Option WindowRecord

/-- The fixed/refreshing-window `handleRateLimiting(key, limit, windowMs)`:
create `{count: 0, lastReset: now}` for an unseen key, reset the record when
`now - lastReset > windowMs`, reject without incrementing when
`count >= limit`, else increment. Returns `true` when the limit is
exceeded. -/
def handleRateLimiting (m : FWMap) (key : String) (limit windowMs now : Nat) :
    Bool × FWMap :=
  let data0 := (m key).getD { count := 0, lastReset := now }
  let data1 :=
    if (windowMs : Int) < (now : Int) - data0.lastReset then
      { count := 0, lastReset := now }
    else data0
  if limit ≤ data1.count then
    (true, fun k => if k = key then some data1 else m k)
  else
    (false, fun k => if k = key then some { data1 with count := data1.count + 1 } else m k)

/-- Which dimension produced the 429 ("Too Many Requests - IP Limit" vs
"- Session Limit"). -/
inductive LimitTag
  | byIp
  | bySession
deriving DecidableEq, Repr

/-- The JavaScript `rateLimit` middleware: check the IP key first and return
the IP-tagged rejection on exhaustion; otherwise check the session key and
return the session-tagged rejection; otherwise pass. -/
def rateLimit (m : FWMap) (ip sessionId : String)
    (ipLimit sessionLimit windowMs now : Nat) : Option LimitTag × FWMap :=
  let r1 := handleRateLimiting m ip ipLimit windowMs now
  if r1.1 then (some .byIp, r1.2)
  else
    let r2 := handleRateLimiting r1.2 sessionId sessionLimit windowMs now
    if r2.1 then (some .bySession, r2.2) else (none, r2.2)

end FixedWindow

/-- Map for the C6 witness: key `"a"` exhausted with two old timestamps. -/
def slMapW : SlidingLog.RateMap := fun _ => [0, 1]

/-- Cache for the C6 witness: key `"a"` exhausted (count 3 = limit) with an
expired ttl (`start = 0`, `ttl = 2000`, `now = 2000`). -/
def cacheW : Cache :=
  { max := 1, ttl := 2 * 1000, entries := [("a", { count := 3, reset := 1500, start := 0 })] }

/-- Map for the C7 witness: IP key `"ip1"` already at its limit of 2;
session key `"s1"` already at its limit of 3. -/
def fwMapW : FixedWindow.FWMap :=
  fun k =>
    if k = "ip1" then some { count := 2, lastReset := 0 }
    else if k = "s1" then some { count := 3, lastReset := 0 } else none

/-- First call on a fresh key: the entry is created with `count := 0`,
`reset := t0 + window`, `start := t0`, then bumped to count 1. -/
lemma check_fresh_first (k : String) (limit window t0 : Nat) (hl : 0 < limit) :
    checkRateLimit (emptyCache limit window) k limit window t0 =
      ((true, limit - 1, (t0 + window + 999) / 1000), singletonState k limit window t0 1) := by
  have h1 : ¬ limit < 1 := by omega
  simp [checkRateLimit, cacheGet, lookupEntry, cacheSet, bumpAt, emptyCache, singletonState, h1]
  omega

lemma check_singleton_step (k : String) (limit window t0 i t : Nat)
    (ht : t < t0 + window * 1000) :
    checkRateLimit (singletonState k limit window t0 i) k limit window t =
      ((decide (i + 1 ≤ limit), if i + 1 ≤ limit then limit - (i + 1) else 0,
        (t0 + window + 999) / 1000),
       singletonState k limit window t0 (i + 1)) := by
  have hlt : ¬ t0 + window * 1000 ≤ t := by omega
  simp [checkRateLimit, cacheGet, lookupEntry, singletonState, bumpAt, hlt]

lemma runCalls_singleton (k : String) (limit window t0 : Nat) :
    ∀ (ts : List Nat) (i : Nat), (∀ t ∈ ts, t < t0 + window * 1000) →
      runCalls k limit window ts (singletonState k limit window t0 i) =
        (expectedResults limit window t0 i ts.length,
         singletonState k limit window t0 (i + ts.length)) := by
  intro ts
  induction ts with
  | nil => intro i h; simp [runCalls, expectedResults]
  | cons t ts ih =>
      intro i h
      have ht : t < t0 + window * 1000 := h t (by simp)
      have hrest : ∀ x ∈ ts, x < t0 + window * 1000 := fun x hx => h x (by simp [hx])
      simp only [runCalls, check_singleton_step k limit window t0 i t ht, ih (i + 1) hrest,
        expectedResults, List.length_cons]
      have e : i + 1 + ts.length = i + (ts.length + 1) := by omega
      rw [e]

lemma expectedResults_getD (limit window t0 : Nat) :
    ∀ (n i j : Nat), j < n →
      (expectedResults limit window t0 i n).getD j defaultRes =
        (decide (i + j + 1 ≤ limit), if i + j + 1 ≤ limit then limit - (i + j + 1) else 0,
          (t0 + window + 999) / 1000) := by
  intro n
  induction n with
  | zero => intro i j h; omega
  | succ n ih =>
      intro i j h
      cases j with
      | zero => simp [expectedResults]
      | succ j =>
          have h2 := ih (i + 1) j (by omega)
          have e : i + 1 + j = i + (j + 1) := by omega
          rw [e] at h2
          simpa [expectedResults] using h2

/-- C1: for every fresh identity key and every limit L > 0, the first L calls
to `checkRateLimit` within one window are all admitted with
`remaining = L - (number of calls so far)`, and the (L+1)-th call within the
same window is rejected with `remaining = 0`. -/
theorem C1_local_counter_window (limit window t0 : Nat) (ts : List Nat) (k : String)
    (hl : 0 < limit) (hlen : ts.length = limit)
    (hin : ∀ t ∈ ts, t < t0 + window * 1000) :
    (∀ j, j < limit →
      ((runCalls k limit window (t0 :: ts) (emptyCache limit window)).1).getD j defaultRes
        = (true, limit - (j + 1), (t0 + window + 999) / 1000))
    ∧ ((runCalls k limit window (t0 :: ts) (emptyCache limit window)).1).getD limit defaultRes
        = (false, 0, (t0 + window + 999) / 1000) := by
  have hrun : runCalls k limit window (t0 :: ts) (emptyCache limit window) =
      ((true, limit - 1, (t0 + window + 999) / 1000)
          :: expectedResults limit window t0 1 ts.length,
       singletonState k limit window t0 (1 + ts.length)) := by
    simp only [runCalls, check_fresh_first k limit window t0 hl]
    rw [runCalls_singleton k limit window t0 ts 1 hin]
  rw [hrun]
  constructor
  · intro j hj
    cases j with
    | zero => simp
    | succ j =>
        rw [List.getD_cons_succ,
          expectedResults_getD limit window t0 ts.length 1 j (by omega)]
        have h1 : 1 + j + 1 ≤ limit := by omega
        simp only [h1, decide_eq_true_eq, if_pos h1, decide_eq_true]
        have : limit - (1 + j + 1) = limit - (j + 1 + 1) := by omega
        rw [this]
        simp [h1]
  · obtain ⟨L, rfl⟩ : ∃ L, limit = L + 1 := ⟨limit - 1, by omega⟩
    rw [List.getD_cons_succ,
      expectedResults_getD (L + 1) window t0 ts.length 1 L (by omega)]
    have h1 : ¬ (1 + L + 1 ≤ L + 1) := by omega
    simp [h1]

/-- Witness for C1 at `limit = 2`, `window = 1`, times `0, 0, 0`, key `"a"`. -/
theorem C1_local_counter_window_witness :
    0 < 2 ∧ ([0, 0] : List Nat).length = 2 ∧ (∀ t ∈ ([0, 0] : List Nat), t < 0 + 1 * 1000) ∧
    ((∀ j, j < 2 → ((runCalls "a" 2 1 (0 :: [0, 0]) (emptyCache 2 1)).1).getD j defaultRes
        = (true, 2 - (j + 1), (0 + 1 + 999) / 1000))
      ∧ ((runCalls "a" 2 1 (0 :: [0, 0]) (emptyCache 2 1)).1).getD 2 defaultRes
        = (false, 0, (0 + 1 + 999) / 1000)) :=
  ⟨by decide, by decide, by decide,
    C1_local_counter_window 2 1 0 [0, 0] "a" (by decide) (by decide) (by decide)⟩

lemma lookupEntry_eq_none_iff (l : List (String × TokenData)) (k : String) :
    lookupEntry l k = none ↔ ∀ p ∈ l, p.1 ≠ k := by
  simp [lookupEntry, List.find?_eq_none]

lemma filter_ne_of_lookup_none (l : List (String × TokenData)) (k : String)
    (h : lookupEntry l k = none) : l.filter (fun p => p.1 != k) = l := by
  rw [List.filter_eq_self]
  intro p hp
  simpa using (lookupEntry_eq_none_iff l k).mp h p hp

lemma bump_map_of_lookup_none (l : List (String × TokenData)) (k : String)
    (h : lookupEntry l k = none) :
    l.map (fun p => if p.1 == k then (p.1, { p.2 with count := p.2.count + 1 }) else p) = l := by
  induction l with
  | nil => rfl
  | cons p l ih =>
      have h1 : (p.1 == k) = false := by
        simpa using (lookupEntry_eq_none_iff _ _).mp h p (by simp)
      have h2 : lookupEntry l k = none := by
        rw [lookupEntry_eq_none_iff]
        exact fun q hq => (lookupEntry_eq_none_iff _ _).mp h q (by simp [hq])
      rw [List.map_cons, ih h2, h1]
      simp

lemma cacheGet_none (c : Cache) (k : String) (now : Nat)
    (h : lookupEntry c.entries k = none) : cacheGet c k now = (none, c) := by
  simp [cacheGet, h]

lemma cacheSet_noevict (c : Cache) (k : String) (d : TokenData)
    (h : lookupEntry c.entries k = none) (hcap : c.entries.length < c.max) :
    cacheSet c k d = { c with entries := (k, d) :: c.entries } := by
  unfold cacheSet
  dsimp only
  rw [filter_ne_of_lookup_none c.entries k h,
    if_neg (by simp only [List.length_cons]; omega)]

lemma cacheSet_evict (c : Cache) (k : String) (d : TokenData)
    (h : lookupEntry c.entries k = none)
    (hlen : c.entries.length = c.max) (hmax : 0 < c.max) :
    cacheSet c k d = { c with entries := (k, d) :: c.entries.dropLast } := by
  have hne : c.entries ≠ [] := by
    intro h0
    rw [h0] at hlen
    simp at hlen
    omega
  unfold cacheSet
  dsimp only
  rw [filter_ne_of_lookup_none c.entries k h,
    if_pos (by simp only [List.length_cons]; omega)]
  cases hc : c.entries with
  | nil => exact absurd hc hne
  | cons p l => simp [List.dropLast_cons₂]

lemma bumpAt_head (c : Cache) (k : String) (d : TokenData) (l : List (String × TokenData))
    (h : lookupEntry l k = none) :
    bumpAt { c with entries := (k, d) :: l } k
      = { c with entries := (k, { d with count := d.count + 1 }) :: l } := by
  unfold bumpAt
  dsimp only
  rw [List.map_cons, bump_map_of_lookup_none l k h]
  simp

lemma check_fresh_noevict (c : Cache) (k : String) (limit window now : Nat)
    (hfresh : lookupEntry c.entries k = none)
    (hcap : c.entries.length < c.max) :
    checkRateLimit c k limit window now =
      ((decide (1 ≤ limit), if 1 ≤ limit then limit - 1 else 0, (now + window + 999) / 1000),
       { c with entries := (k, { count := 1, reset := now + window, start := now }) :: c.entries }) := by
  unfold checkRateLimit
  rw [cacheGet_none c k now hfresh]
  dsimp only
  rw [cacheSet_noevict c k _ hfresh hcap, bumpAt_head c k _ c.entries hfresh]

lemma check_fresh_evict (c : Cache) (k : String) (limit window now : Nat)
    (hfresh : lookupEntry c.entries k = none)
    (hlen : c.entries.length = c.max) (hmax : 0 < c.max) :
    checkRateLimit c k limit window now =
      ((decide (1 ≤ limit), if 1 ≤ limit then limit - 1 else 0, (now + window + 999) / 1000),
       { c with entries :=
           (k, { count := 1, reset := now + window, start := now }) :: c.entries.dropLast }) := by
  have hfresh2 : lookupEntry c.entries.dropLast k = none := by
    rw [lookupEntry_eq_none_iff]
    exact fun p hp => (lookupEntry_eq_none_iff c.entries k).mp hfresh p (List.dropLast_subset _ hp)
  unfold checkRateLimit
  rw [cacheGet_none c k now hfresh]
  dsimp only
  rw [cacheSet_evict c k _ hfresh hlen hmax, bumpAt_head c k _ c.entries.dropLast hfresh2]

lemma filter_lt_of_lookup_some (l : List (String × TokenData)) (k : String) (d : TokenData)
    (h : lookupEntry l k = some d) :
    (l.filter (fun p => p.1 != k)).length < l.length := by
  induction l with
  | nil => simp [lookupEntry] at h
  | cons p l ih =>
      cases hpk : (p.1 == k) with
      | true =>
          have hb : (p.1 != k) = false := by simp [bne, hpk]
          have hle : (l.filter (fun p => p.1 != k)).length ≤ l.length := List.length_filter_le _ _
          rw [List.filter_cons, hb]
          simp only [List.length_cons, Bool.false_eq_true, if_false]
          omega
      | false =>
          have h2 : lookupEntry l k = some d := by
            simpa [lookupEntry, List.find?_cons, hpk] using h
          have hb : (p.1 != k) = true := by simp [bne, hpk]
          rw [List.filter_cons, hb]
          simp only [List.length_cons, if_true]
          have := ih h2
          omega

lemma cacheSet_length_le (c : Cache) (k : String) (d : TokenData)
    (h : c.entries.length ≤ c.max) :
    (cacheSet c k d).entries.length ≤ c.max := by
  have hf : (c.entries.filter (fun p => p.1 != k)).length ≤ c.entries.length :=
    List.length_filter_le _ _
  unfold cacheSet
  dsimp only
  split
  · next h1 =>
      simp only [List.length_cons] at h1
      rw [List.length_dropLast]
      simp only [List.length_cons]
      omega
  · next h1 =>
      simp only [List.length_cons] at h1 ⊢
      omega

lemma bumpAt_length (c : Cache) (k : String) :
    (bumpAt c k).entries.length = c.entries.length := by
  simp [bumpAt]

lemma lookupEntry_cons_self (l : List (String × TokenData)) (k : String) (d : TokenData) :
    lookupEntry ((k, d) :: l) k = some d := by
  simp [lookupEntry, List.find?_cons]

lemma checkRateLimit_length_le (c : Cache) (k : String) (limit window now : Nat)
    (h : c.entries.length ≤ c.max) :
    ((checkRateLimit c k limit window now).2).entries.length ≤ c.max := by
  unfold checkRateLimit
  cases hget : lookupEntry c.entries k with
  | none =>
      rw [cacheGet_none c k now hget]
      dsimp only
      rw [bumpAt_length]
      exact cacheSet_length_le c k _ h
  | some d =>
      unfold cacheGet
      rw [hget]
      dsimp only
      by_cases hst : c.ttl ≠ 0 ∧ d.start + c.ttl ≤ now
      · rw [if_pos hst]
        dsimp only
        rw [bumpAt_length]
        exact cacheSet_length_le _ k _ (le_trans (List.length_filter_le _ _) h)
      · rw [if_neg hst]
        dsimp only
        rw [bumpAt_length]
        simp only [List.length_cons]
        have := filter_lt_of_lookup_some c.entries k d hget
        omega

/-- C5: the number of keys tracked by the local window counter never exceeds
the configured capacity (`max`); when a new distinct key is inserted at
capacity, exactly the least-recently-touched entry (the last of the
recency-ordered list) is evicted; and a subsequent check on a key absent from
the cache (such as a just-evicted one) is admitted as a fresh key whose count
restarts at 1 (`remaining = limit - 1`, stored count 1). -/
theorem C5_capacity_lru :
    (∀ (c : Cache) (k : String) (limit window now : Nat),
        c.entries.length ≤ c.max →
        ((checkRateLimit c k limit window now).2).entries.length ≤ c.max)
    ∧ (∀ (c : Cache) (k : String) (limit window now : Nat),
        lookupEntry c.entries k = none →
        c.entries.length = c.max → 0 < c.max →
        ((checkRateLimit c k limit window now).2).entries
          = (k, { count := 1, reset := now + window, start := now }) :: c.entries.dropLast)
    ∧ (∀ (c : Cache) (k : String) (pe : String × TokenData) (limit window now : Nat),
        lookupEntry c.entries k = none →
        c.entries.length = c.max → 0 < c.max →
        (c.entries.map Prod.fst).Nodup →
        c.entries.getLast? = some pe →
        lookupEntry ((checkRateLimit c k limit window now).2).entries pe.1 = none)
    ∧ (∀ (c : Cache) (k : String) (limit window now : Nat),
        lookupEntry c.entries k = none → 0 < limit →
        (checkRateLimit c k limit window now).1
            = (true, limit - 1, (now + window + 999) / 1000)
        ∧ (c.entries.length ≤ c.max → 0 < c.max →
            lookupEntry ((checkRateLimit c k limit window now).2).entries k
              = some { count := 1, reset := now + window, start := now })) := by
  refine ⟨checkRateLimit_length_le, ?_, ?_, ?_⟩
  · intro c k limit window now hfresh hlen hmax
    rw [check_fresh_evict c k limit window now hfresh hlen hmax]
  · intro c k pe limit window now hfresh hlen hmax hnd hlast
    rw [check_fresh_evict c k limit window now hfresh hlen hmax]
    have hpe_mem : pe ∈ c.entries := by
      have : pe ∈ c.entries.getLast? := by simp [hlast]
      exact List.mem_of_mem_getLast? this
    have hk_ne : pe.1 ≠ k := (lookupEntry_eq_none_iff _ _).mp hfresh pe hpe_mem
    have hdecomp : c.entries.dropLast ++ [pe] = c.entries :=
      List.dropLast_append_getLast? pe (by simp [hlast])
    have hnd2 : ((c.entries.dropLast.map Prod.fst) ++ [pe.1]).Nodup := by
      have e : (c.entries.dropLast.map Prod.fst) ++ [pe.1] = c.entries.map Prod.fst := by
        have e2 := congrArg (List.map Prod.fst) hdecomp
        simpa [List.map_append] using e2
      rw [e]
      exact hnd
    have hnotin : pe.1 ∉ c.entries.dropLast.map Prod.fst := by
      intro hmem
      have hdisj := List.disjoint_of_nodup_append hnd2
      exact hdisj hmem (by simp)
    rw [lookupEntry_eq_none_iff]
    rintro p hp
    rcases List.mem_cons.mp hp with h | h
    · rw [h]
      exact fun he => hk_ne he.symm
    · intro he
      exact hnotin (he ▸ List.mem_map_of_mem Prod.fst h)
  · intro c k limit window now hfresh hl
    constructor
    · unfold checkRateLimit
      rw [cacheGet_none c k now hfresh]
      dsimp only
      have h1 : 0 + 1 ≤ limit := by omega
      simp [h1]
    · intro hle hmax
      rcases lt_or_eq_of_le hle with hlt | heq
      · rw [check_fresh_noevict c k limit window now hfresh hlt]
        exact lookupEntry_cons_self _ k _
      · rw [check_fresh_evict c k limit window now hfresh heq hmax]
        exact lookupEntry_cons_self _ k _

/-- Witness for C5: a cache with capacity 1 holding key `"b"`; checking the
fresh key `"a"` evicts `"b"`, and both behave as the theorem states. -/
theorem C5_capacity_lru_witness :
    ((checkRateLimit cW "a" 3 2 100).2).entries.length ≤ cW.max
    ∧ ((checkRateLimit cW "a" 3 2 100).2).entries
        = ("a", { count := 1, reset := 100 + 2, start := 100 }) :: cW.entries.dropLast
    ∧ lookupEntry ((checkRateLimit cW "a" 3 2 100).2).entries "b" = none
    ∧ ((checkRateLimit cW "a" 3 2 100).1 = (true, 3 - 1, (100 + 2 + 999) / 1000)
        ∧ lookupEntry ((checkRateLimit cW "a" 3 2 100).2).entries "a"
            = some { count := 1, reset := 100 + 2, start := 100 }) :=
  ⟨C5_capacity_lru.1 cW "a" 3 2 100 (by decide),
   C5_capacity_lru.2.1 cW "a" 3 2 100 (by decide) (by decide) (by decide),
   C5_capacity_lru.2.2.1 cW "a" ("b", { count := 1, reset := 5, start := 0 }) 3 2 100
     (by decide) (by decide) (by decide) (by decide) (by decide),
   (C5_capacity_lru.2.2.2 cW "a" 3 2 100 (by decide) (by decide)).1,
   (C5_capacity_lru.2.2.2 cW "a" 3 2 100 (by decide) (by decide)).2 (by decide) (by decide)⟩

/-- C10: for a fresh key first seen at millisecond time `now` with window `w`
in seconds, `checkRateLimit` stores the entry's `reset` field as `now + w`
(milliseconds plus a seconds quantity) and reports
`reset = ceil((now + w)/1000)`; consequently for `w < 1000` the reported
epoch-second is within one second of the first call's time, not `w` seconds
in the future. -/
theorem C10_reset_units (c : Cache) (k : String) (limit window now : Nat)
    (hfresh : lookupEntry c.entries k = none)
    (hcap : c.entries.length < c.max) :
    (checkRateLimit c k limit window now).1.2.2 = (now + window + 999) / 1000
    ∧ lookupEntry ((checkRateLimit c k limit window now).2).entries k
        = some { count := 1, reset := now + window, start := now }
    ∧ (window < 1000 →
        (now + 999) / 1000 ≤ (checkRateLimit c k limit window now).1.2.2
        ∧ (checkRateLimit c k limit window now).1.2.2 ≤ (now + 999) / 1000 + 1) := by
  rw [check_fresh_noevict c k limit window now hfresh hcap]
  refine ⟨rfl, lookupEntry_cons_self _ k _, fun hw => ⟨?_, ?_⟩⟩ <;> dsimp only <;> omega

/-- Witness for C10 at `now = 86400000` (one day in ms), `window = 10` s:
the reported reset is second 86401, one second after the call, not 10. -/
theorem C10_reset_units_witness :
    (checkRateLimit (emptyCache 5 10) "a" 5 10 86400000).1.2.2 = (86400000 + 10 + 999) / 1000
    ∧ lookupEntry ((checkRateLimit (emptyCache 5 10) "a" 5 10 86400000).2).entries "a"
        = some { count := 1, reset := 86400000 + 10, start := 86400000 }
    ∧ (10 < 1000 →
        (86400000 + 999) / 1000 ≤ (checkRateLimit (emptyCache 5 10) "a" 5 10 86400000).1.2.2
        ∧ (checkRateLimit (emptyCache 5 10) "a" 5 10 86400000).1.2.2
            ≤ (86400000 + 999) / 1000 + 1) :=
  C10_reset_units (emptyCache 5 10) "a" 5 10 86400000 (by decide) (by decide)

/-- C8: with no `req`, no `request` and no (truthy) explicit identifier, the
call throws the invalid-input error and the module state is untouched — in
particular nothing was counted against an empty key. -/
theorem C8_missing_identity_error (request : Option RequestModel) (req : Option ReqModel)
    (identifier : Option String) (limit window : Nat) (upstash0 : UpstashConfig)
    (envUrl envToken : Option String) (st : GlobalState)
    (upstashResult : UpstashResult) (now : Nat)
    (h : req = none ∧ request = none ∧ optTruthy identifier = false) :
    rateLimit request req identifier limit window upstash0 envUrl envToken st upstashResult now
      = { result := Except.error "Either Request or Identifier is Required",
          state := st, sharedConsulted := false } := by
  unfold rateLimit
  rw [if_pos h]

/-- Witness for C8: nothing supplied at all. -/
theorem C8_missing_identity_error_witness :
    (none = (none : Option ReqModel) ∧ none = (none : Option RequestModel)
        ∧ optTruthy none = false)
    ∧ rateLimit none none none 60 60
        ({ enabled := false, url := none, token := none, sliding := false, analytics := false })
        none none
        ({ currentConfig := none, cache := emptyCache 1 1, cacheGen := 0, sharedGen := 0 })
        ({ success := true, remaining := 0, reset := 0 }) 0
      = { result := Except.error "Either Request or Identifier is Required",
          state := { currentConfig := none, cache := emptyCache 1 1, cacheGen := 0, sharedGen := 0 },
          sharedConsulted := false } :=
  ⟨⟨rfl, rfl, rfl⟩,
    C8_missing_identity_error none none none 60 60
      ({ enabled := false, url := none, token := none, sliding := false, analytics := false })
      none none
      ({ currentConfig := none, cache := emptyCache 1 1, cacheGen := 0, sharedGen := 0 })
      ({ success := true, remaining := 0, reset := 0 }) 0 ⟨rfl, rfl, rfl⟩⟩

/-- C3: whenever the local counter rejects, `rateLimit` returns
`success = false` on the 429 path and the shared Upstash backend is not
consulted — with no assumption on the Upstash configuration, so in
particular even when it is enabled with url and token set. -/
theorem C3_local_reject_short_circuit (request : Option RequestModel) (req : Option ReqModel)
    (identifier : Option String) (limit window : Nat) (upstash0 : UpstashConfig)
    (envUrl envToken : Option String) (st : GlobalState)
    (upstashResult : UpstashResult) (now : Nat)
    (hguard : ¬(req = none ∧ request = none ∧ optTruthy identifier = false))
    (hlocal : (localOutcome request req identifier limit window upstash0 envUrl envToken
        st now).1.1 = false) :
    (rateLimit request req identifier limit window upstash0 envUrl envToken st
        upstashResult now).sharedConsulted = false
    ∧ (rateLimit request req identifier limit window upstash0 envUrl envToken st
        upstashResult now).result
      = Except.ok
          { success := false,
            remaining := (localOutcome request req identifier limit window upstash0 envUrl
                envToken st now).1.2.1,
            reset := (localOutcome request req identifier limit window upstash0 envUrl
                envToken st now).1.2.2,
            rateLimited := true } := by
  unfold localOutcome at hlocal ⊢
  unfold rateLimit
  rw [if_neg hguard]
  dsimp only
  rw [if_pos hlocal]
  exact ⟨rfl, rfl⟩

/-- Witness for C3: the local counter rejects and Upstash is enabled with url
and token set, yet the shared backend is not consulted. -/
theorem C3_local_reject_short_circuit_witness :
    (¬((some reqC : Option ReqModel) = none ∧ (none : Option RequestModel) = none
        ∧ optTruthy none = false))
    ∧ (localOutcome none (some reqC) none 1 1 upsW none none stC 100).1.1 = false
    ∧ ((rateLimit none (some reqC) none 1 1 upsW none none stC
          ({ success := true, remaining := 5, reset := 9000 }) 100).sharedConsulted = false
      ∧ (rateLimit none (some reqC) none 1 1 upsW none none stC
          ({ success := true, remaining := 5, reset := 9000 }) 100).result
        = Except.ok
            { success := false,
              remaining := (localOutcome none (some reqC) none 1 1 upsW none none stC 100).1.2.1,
              reset := (localOutcome none (some reqC) none 1 1 upsW none none stC 100).1.2.2,
              rateLimited := true }) :=
  ⟨by decide, by decide,
    C3_local_reject_short_circuit none (some reqC) none 1 1 upsW none none stC
      ({ success := true, remaining := 5, reset := 9000 }) 100 (by decide) (by decide)⟩

/-- C2: when the local check admits and the Upstash guard holds, the merged
result has `remaining = min(local, shared)`, `reset = max(local reset,
ceil(shared reset / 1000))`, and `success = shared.success` (the local
verdict was already true, so this equals their conjunction); in particular a
shared rejection after a local admit yields `success = false`. -/
theorem C2_shared_merge (request : Option RequestModel) (req : Option ReqModel)
    (identifier : Option String) (limit window : Nat) (upstash0 : UpstashConfig)
    (envUrl envToken : Option String) (st : GlobalState)
    (upstashResult : UpstashResult) (now : Nat)
    (hguard : ¬(req = none ∧ request = none ∧ optTruthy identifier = false))
    (hlocal : (localOutcome request req identifier limit window upstash0 envUrl envToken
        st now).1.1 = true)
    (hactive : upstashActive (effectiveUpstash upstash0 envUrl envToken) = true) :
    (rateLimit request req identifier limit window upstash0 envUrl envToken st
        upstashResult now).sharedConsulted = true
    ∧ (rateLimit request req identifier limit window upstash0 envUrl envToken st
        upstashResult now).result
      = Except.ok
          { success := upstashResult.success,
            remaining := min (localOutcome request req identifier limit window upstash0
                envUrl envToken st now).1.2.1 upstashResult.remaining,
            reset := max (localOutcome request req identifier limit window upstash0
                envUrl envToken st now).1.2.2 ((upstashResult.reset + 999) / 1000),
            rateLimited := !upstashResult.success } := by
  unfold localOutcome at hlocal ⊢
  have hlocal2 : ¬ ((checkRateLimit
      (reinitIfChanged
        { limit := limit, window := window,
          upstash := effectiveUpstash upstash0 envUrl envToken } st).cache
      ((resolveIdentifier identifier req request).getD "") limit window now).1.1 = false) := by
    rw [hlocal]
    simp
  unfold rateLimit
  rw [if_neg hguard]
  dsimp only
  rw [if_neg hlocal2, if_pos hactive]
  cases hs : upstashResult.success with
  | false =>
      rw [if_pos rfl]
      exact ⟨rfl, rfl⟩
  | true =>
      rw [if_neg (by simp : ¬ (true : Bool) = false)]
      exact ⟨rfl, rfl⟩

/-- Witness for C2: local admit, shared backend rejects; the merged result
has `success = false`, merged remaining and reset. -/
theorem C2_shared_merge_witness :
    (¬((some reqD : Option ReqModel) = none ∧ (none : Option RequestModel) = none
        ∧ optTruthy none = false))
    ∧ (localOutcome none (some reqD) none 2 1 upsW none none stD 100).1.1 = true
    ∧ upstashActive (effectiveUpstash upsW none none) = true
    ∧ ((rateLimit none (some reqD) none 2 1 upsW none none stD
          ({ success := false, remaining := 0, reset := 9000 }) 100).sharedConsulted = true
      ∧ (rateLimit none (some reqD) none 2 1 upsW none none stD
          ({ success := false, remaining := 0, reset := 9000 }) 100).result
        = Except.ok
            { success := false,
              remaining := min (localOutcome none (some reqD) none 2 1 upsW none none
                  stD 100).1.2.1 0,
              reset := max (localOutcome none (some reqD) none 2 1 upsW none none
                  stD 100).1.2.2 ((9000 + 999) / 1000),
              rateLimited := !false }) :=
  ⟨by decide, by decide, by decide,
    C2_shared_merge none (some reqD) none 2 1 upsW none none stD
      ({ success := false, remaining := 0, reset := 9000 }) 100
      (by decide) (by decide) (by decide)⟩

/-- C9 counterexample: switching from `cfgA` to the structurally different
`cfgB` (Upstash disabled) rebuilds the local counter but leaves the shared
counter client exactly as it was (`sharedGen` unchanged), contradicting the
claim that both components are fully reconstructed on every structural
configuration change. -/
theorem C9_shared_client_not_rebuilt :
    some cfgB ≠ stA.currentConfig
    ∧ (reinitIfChanged cfgB stA).cacheGen = stA.cacheGen + 1
    ∧ (reinitIfChanged cfgB stA).sharedGen = stA.sharedGen := by
  refine ⟨by decide, ?_, ?_⟩ <;> rfl

/-- C9 (amended): on a structural configuration change the local window
counter is always reconstructed (fresh LRU cache, all counts discarded) and
the new configuration is stored; the shared counter client is reconstructed
exactly when the new configuration's Upstash guard (`enabled && url &&
token`) holds, and is otherwise left as-is; on a structurally equal
configuration the whole module state is untouched. -/
theorem C9_reinit_behavior (cfg : Config) (st : GlobalState) :
    (some cfg ≠ st.currentConfig →
      (reinitIfChanged cfg st).cacheGen = st.cacheGen + 1
      ∧ (reinitIfChanged cfg st).cache = emptyCache cfg.limit cfg.window
      ∧ (reinitIfChanged cfg st).currentConfig = some cfg
      ∧ (reinitIfChanged cfg st).sharedGen
          = (if upstashActive cfg.upstash then st.sharedGen + 1 else st.sharedGen))
    ∧ (some cfg = st.currentConfig → reinitIfChanged cfg st = st) := by
  constructor
  · intro h
    unfold reinitIfChanged
    rw [if_neg h]
    exact ⟨rfl, rfl, rfl, rfl⟩
  · intro h
    unfold reinitIfChanged
    rw [if_pos h]

/-- Witness for C9 (amended): the change branch at `cfgB`/`stA` and the
no-change branch at `cfgA`/`stA`. -/
theorem C9_reinit_behavior_witness :
    (some cfgB ≠ stA.currentConfig
      ∧ ((reinitIfChanged cfgB stA).cacheGen = stA.cacheGen + 1
        ∧ (reinitIfChanged cfgB stA).cache = emptyCache cfgB.limit cfgB.window
        ∧ (reinitIfChanged cfgB stA).currentConfig = some cfgB
        ∧ (reinitIfChanged cfgB stA).sharedGen
            = (if upstashActive cfgB.upstash then stA.sharedGen + 1 else stA.sharedGen)))
    ∧ (some cfgA = stA.currentConfig ∧ reinitIfChanged cfgA stA = stA) :=
  ⟨⟨by decide, (C9_reinit_behavior cfgB stA).1 (by decide)⟩,
   ⟨by decide, (C9_reinit_behavior cfgA stA).2 (by decide)⟩⟩

lemma jsOr_truthy (a b : Option String) (h : optTruthy a = true) : jsOr a b = a := by
  cases a with
  | none => simp [optTruthy] at h
  | some s =>
      have hs : ¬ s = "" := by simpa [optTruthy] using h
      simp [jsOr, hs]

lemma jsOr_falsy (a b : Option String) (h : optTruthy a = false) : jsOr a b = b := by
  cases a with
  | none => rfl
  | some s =>
      have hs : s = "" := by simpa [optTruthy] using h
      simp [jsOr, hs]

lemma optTruthy_loopback : optTruthy (some "127.0.0.1") = true := by decide

/-- C4: precedence of the network-address identity key. A truthy explicit
identifier always wins; otherwise, for an `IncomingMessage` (`req`), the
trimmed last forwarded-for entry, then the socket remote address, then the
loopback placeholder; for a fetch `Request` alone, the trimmed last
forwarded-for entry, then `request.ip`, then `x-real-ip`, then `x-client-ip`,
then the loopback placeholder ("truthy" being JavaScript truthiness:
present and non-empty). -/
theorem C4_identifier_precedence :
    (∀ (s : String) (req : Option ReqModel) (request : Option RequestModel),
        s ≠ "" → resolveIdentifier (some s) req request = some s)
    ∧ (∀ (identifier : Option String) (r : ReqModel) (request : Option RequestModel),
        optTruthy identifier = false →
        optTruthy (lastForwarded r.xff) = true →
        resolveIdentifier identifier (some r) request = lastForwarded r.xff)
    ∧ (∀ (identifier : Option String) (r : ReqModel) (request : Option RequestModel),
        optTruthy identifier = false →
        optTruthy (lastForwarded r.xff) = false →
        optTruthy r.remoteAddress = true →
        resolveIdentifier identifier (some r) request = r.remoteAddress)
    ∧ (∀ (identifier : Option String) (r : ReqModel) (request : Option RequestModel),
        optTruthy identifier = false →
        optTruthy (lastForwarded r.xff) = false →
        optTruthy r.remoteAddress = false →
        resolveIdentifier identifier (some r) request = some "127.0.0.1")
    ∧ (∀ (identifier : Option String) (r : RequestModel),
        optTruthy identifier = false →
        optTruthy (lastForwarded r.xff) = true →
        resolveIdentifier identifier none (some r) = lastForwarded r.xff)
    ∧ (∀ (identifier : Option String) (r : RequestModel),
        optTruthy identifier = false →
        optTruthy (lastForwarded r.xff) = false →
        optTruthy r.ip = true →
        resolveIdentifier identifier none (some r) = r.ip)
    ∧ (∀ (identifier : Option String) (r : RequestModel),
        optTruthy identifier = false →
        optTruthy (lastForwarded r.xff) = false →
        optTruthy r.ip = false →
        optTruthy r.xRealIp = true →
        resolveIdentifier identifier none (some r) = r.xRealIp)
    ∧ (∀ (identifier : Option String) (r : RequestModel),
        optTruthy identifier = false →
        optTruthy (lastForwarded r.xff) = false →
        optTruthy r.ip = false →
        optTruthy r.xRealIp = false →
        optTruthy r.xClientIp = true →
        resolveIdentifier identifier none (some r) = r.xClientIp)
    ∧ (∀ (identifier : Option String) (r : RequestModel),
        optTruthy identifier = false →
        optTruthy (lastForwarded r.xff) = false →
        optTruthy r.ip = false →
        optTruthy r.xRealIp = false →
        optTruthy r.xClientIp = false →
        resolveIdentifier identifier none (some r) = some "127.0.0.1") := by
  have hid : ∀ (s : String), s ≠ "" → optTruthy (some s) = true := by
    intro s hs
    simpa [optTruthy] using hs
  refine ⟨?_, ?_, ?_, ?_, ?_, ?_, ?_, ?_, ?_⟩
  · intro s req request hs
    unfold resolveIdentifier
    cases req with
    | none =>
        cases request with
        | none => rfl
        | some r => dsimp only; rw [jsOr_truthy _ _ (hid s hs)]
    | some r0 =>
        cases request with
        | none => dsimp only; rw [jsOr_truthy _ _ (hid s hs)]
        | some r =>
            dsimp only
            rw [jsOr_truthy _ _ (hid s hs), jsOr_truthy _ _ (hid s hs)]
  · intro identifier r request hidf hx
    unfold resolveIdentifier
    cases request with
    | none => dsimp only; rw [jsOr_falsy _ _ hidf, jsOr_truthy _ _ hx]
    | some rq =>
        dsimp only
        rw [jsOr_falsy _ _ hidf, jsOr_truthy _ _ hx, jsOr_truthy _ _ hx]
  · intro identifier r request hidf hx ha
    unfold resolveIdentifier
    cases request with
    | none =>
        dsimp only
        rw [jsOr_falsy _ _ hidf, jsOr_falsy _ _ hx, jsOr_truthy _ _ ha]
    | some rq =>
        dsimp only
        rw [jsOr_falsy _ _ hidf, jsOr_falsy _ _ hx, jsOr_truthy _ _ ha, jsOr_truthy _ _ ha]
  · intro identifier r request hidf hx ha
    unfold resolveIdentifier
    cases request with
    | none =>
        dsimp only
        rw [jsOr_falsy _ _ hidf, jsOr_falsy _ _ hx, jsOr_falsy _ _ ha]
    | some rq =>
        dsimp only
        rw [jsOr_falsy _ _ hidf, jsOr_falsy _ _ hx, jsOr_falsy _ _ ha,
          jsOr_truthy _ _ optTruthy_loopback]
  · intro identifier r hidf hx
    unfold resolveIdentifier
    dsimp only
    rw [jsOr_falsy _ _ hidf, jsOr_truthy _ _ hx]
  · intro identifier r hidf hx hip
    unfold resolveIdentifier
    dsimp only
    rw [jsOr_falsy _ _ hidf, jsOr_falsy _ _ hx, jsOr_truthy _ _ hip]
  · intro identifier r hidf hx hip hreal
    unfold resolveIdentifier
    dsimp only
    rw [jsOr_falsy _ _ hidf, jsOr_falsy _ _ hx, jsOr_falsy _ _ hip, jsOr_truthy _ _ hreal]
  · intro identifier r hidf hx hip hreal hclient
    unfold resolveIdentifier
    dsimp only
    rw [jsOr_falsy _ _ hidf, jsOr_falsy _ _ hx, jsOr_falsy _ _ hip, jsOr_falsy _ _ hreal,
      jsOr_truthy _ _ hclient]
  · intro identifier r hidf hx hip hreal hclient
    unfold resolveIdentifier
    dsimp only
    rw [jsOr_falsy _ _ hidf, jsOr_falsy _ _ hx, jsOr_falsy _ _ hip, jsOr_falsy _ _ hreal,
      jsOr_falsy _ _ hclient]

/-- Witness for C4: each precedence conjunct at concrete header values. -/
theorem C4_identifier_precedence_witness :
    resolveIdentifier (some "client-id") (some reqC) none = some "client-id"
    ∧ resolveIdentifier none
        (some { xff := some "1.1.1.1, 2.2.2.2 ", remoteAddress := some "9.9.9.9" }) none
      = lastForwarded (some "1.1.1.1, 2.2.2.2 ")
    ∧ resolveIdentifier none
        (some { xff := none, remoteAddress := some "9.9.9.9" }) none
      = (some "9.9.9.9" : Option String)
    ∧ resolveIdentifier none (some { xff := none, remoteAddress := none }) none
      = some "127.0.0.1"
    ∧ resolveIdentifier none none
        (some { xff := some "3.3.3.3", ip := none, xRealIp := none, xClientIp := none })
      = lastForwarded (some "3.3.3.3")
    ∧ resolveIdentifier none none
        (some { xff := none, ip := some "4.4.4.4", xRealIp := none, xClientIp := none })
      = (some "4.4.4.4" : Option String)
    ∧ resolveIdentifier none none
        (some { xff := none, ip := none, xRealIp := some "5.5.5.5", xClientIp := none })
      = (some "5.5.5.5" : Option String)
    ∧ resolveIdentifier none none
        (some { xff := none, ip := none, xRealIp := none, xClientIp := some "6.6.6.6" })
      = (some "6.6.6.6" : Option String)
    ∧ resolveIdentifier none none
        (some { xff := none, ip := none, xRealIp := none, xClientIp := none })
      = some "127.0.0.1" :=
  ⟨C4_identifier_precedence.1 "client-id" (some reqC) none (by decide),
   C4_identifier_precedence.2.1 none
     ({ xff := some "1.1.1.1, 2.2.2.2 ", remoteAddress := some "9.9.9.9" }) none
     (by decide) (by decide),
   C4_identifier_precedence.2.2.1 none
     ({ xff := none, remoteAddress := some "9.9.9.9" }) none (by decide) (by decide) (by decide),
   C4_identifier_precedence.2.2.2.1 none
     ({ xff := none, remoteAddress := none }) none (by decide) (by decide) (by decide),
   C4_identifier_precedence.2.2.2.2.1 none
     ({ xff := some "3.3.3.3", ip := none, xRealIp := none, xClientIp := none })
     (by decide) (by decide),
   C4_identifier_precedence.2.2.2.2.2.1 none
     ({ xff := none, ip := some "4.4.4.4", xRealIp := none, xClientIp := none })
     (by decide) (by decide) (by decide),
   C4_identifier_precedence.2.2.2.2.2.2.1 none
     ({ xff := none, ip := none, xRealIp := some "5.5.5.5", xClientIp := none })
     (by decide) (by decide) (by decide) (by decide),
   C4_identifier_precedence.2.2.2.2.2.2.2.1 none
     ({ xff := none, ip := none, xRealIp := none, xClientIp := some "6.6.6.6" })
     (by decide) (by decide) (by decide) (by decide) (by decide),
   C4_identifier_precedence.2.2.2.2.2.2.2.2 none
     ({ xff := none, ip := none, xRealIp := none, xClientIp := none })
     (by decide) (by decide) (by decide) (by decide) (by decide)⟩

lemma cacheGet_stale (c : Cache) (k : String) (now : Nat) (d : TokenData)
    (h : lookupEntry c.entries k = some d)
    (hst : c.ttl ≠ 0 ∧ d.start + c.ttl ≤ now) :
    cacheGet c k now = (none, { c with entries := c.entries.filter (fun p => p.1 != k) }) := by
  unfold cacheGet
  rw [h]
  dsimp only
  rw [if_pos hst]

lemma lookupEntry_filter_self (l : List (String × TokenData)) (k : String) :
    lookupEntry (l.filter (fun p => p.1 != k)) k = none := by
  rw [lookupEntry_eq_none_iff]
  intro p hp
  have := List.of_mem_filter hp
  simpa [bne] using this

/-- C6: a previously exhausted key becomes fully available once the window
has elapsed with no further calls. First conjunct: the sliding-log
`handleRateLimiting` — when every recorded timestamp is at least `windowMs`
old, the check is admitted and the stored log restarts as `[now]`. Second
conjunct: the TypeScript LRU counter — when the entry's ttl
(`window * 1000` ms since `start`) has expired, the next check treats the
key as fresh: admitted with `remaining = limit - 1` and a new entry with
count 1. -/
theorem C6_window_expiry_resets :
    (∀ (m : SlidingLog.RateMap) (key : String) (limit windowMs now : Nat),
        0 < limit →
        limit ≤ (m key).length →
        (∀ ts ∈ m key, ts + windowMs ≤ now) →
        (SlidingLog.handleRateLimiting m key limit windowMs now).1 = false
        ∧ ((SlidingLog.handleRateLimiting m key limit windowMs now).2) key = [now])
    ∧ (∀ (c : Cache) (k : String) (d : TokenData) (limit window now : Nat),
        lookupEntry c.entries k = some d →
        c.ttl = window * 1000 → 0 < window →
        d.start + window * 1000 ≤ now →
        c.entries.length ≤ c.max → 0 < limit →
        (checkRateLimit c k limit window now).1 = (true, limit - 1, (now + window + 999) / 1000)
        ∧ lookupEntry ((checkRateLimit c k limit window now).2).entries k
            = some { count := 1, reset := now + window, start := now }) := by
  constructor
  · intro m key limit windowMs now hl hexh hold
    have hfilt : (m key).filter
        (fun (ts : Nat) => decide ((now : Int) - (ts : Int) < (windowMs : Int))) = [] := by
      rw [List.filter_eq_nil_iff]
      intro ts hts
      have := hold ts hts
      simp only [decide_eq_true_eq]
      omega
    unfold SlidingLog.handleRateLimiting
    dsimp only
    rw [hfilt]
    have hnl : ¬ limit ≤ ([] : List Nat).length := by simp; omega
    rw [if_neg hnl]
    exact ⟨rfl, by simp⟩
  · intro c k d limit window now hget httl hw hst hle hl
    have hst2 : c.ttl ≠ 0 ∧ d.start + c.ttl ≤ now := by
      constructor
      · rw [httl]; positivity
      · rw [httl]; exact hst
    have hflt : (c.entries.filter (fun p => p.1 != k)).length < c.entries.length :=
      filter_lt_of_lookup_some c.entries k d hget
    unfold checkRateLimit
    rw [cacheGet_stale c k now d hget hst2]
    dsimp only
    rw [cacheSet_noevict _ k _ (lookupEntry_filter_self c.entries k) (by dsimp only; omega),
      bumpAt_head _ k _ _ (lookupEntry_filter_self c.entries k)]
    constructor
    · have h1 : 0 + 1 ≤ limit := by omega
      simp [h1]
    · exact lookupEntry_cons_self _ k _

/-- Witness for C6: both conjuncts at concrete exhausted-then-idle keys. -/
theorem C6_window_expiry_resets_witness :
    ((SlidingLog.handleRateLimiting slMapW "a" 2 10 11).1 = false
      ∧ ((SlidingLog.handleRateLimiting slMapW "a" 2 10 11).2) "a" = [11])
    ∧ ((checkRateLimit cacheW "a" 3 2 2000).1 = (true, 3 - 1, (2000 + 2 + 999) / 1000)
      ∧ lookupEntry ((checkRateLimit cacheW "a" 3 2 2000).2).entries "a"
          = some { count := 1, reset := 2000 + 2, start := 2000 }) :=
  ⟨C6_window_expiry_resets.1 slMapW "a" 2 10 11 (by decide) (by decide) (by decide),
   C6_window_expiry_resets.2 cacheW "a" ({ count := 3, reset := 1500, start := 0 }) 3 2 2000
     (by decide) (by decide) (by decide) (by decide) (by decide) (by decide)⟩

/-- C7 counterexample: the counter map is keyed by raw string, not by
(dimension, value): with the address key and the session key both the string
`"a"`, a check on the address dimension changes the stored counter the
session dimension reads, so the dimensions do not act on disjoint state. -/
theorem C7_shared_key_mutation :
    (FixedWindow.handleRateLimiting (fun _ => none) "a" 5 1000 0).2 "a"
      ≠ (fun _ => (none : Option FixedWindow.WindowRecord)) "a" := by
  decide

/-- C7 (amended): provided the address key and the session key are distinct
strings, the dimensions are independent: a check on one key leaves every
other key's record unchanged; exhausting the IP limit yields the IP-tagged
rejection (session state untouched, as the middleware returns before the
session check); exhausting the session limit after an IP pass yields the
session-tagged rejection. -/
theorem C7_dimension_independence :
    (∀ (m : FixedWindow.FWMap) (k other : String) (limit windowMs now : Nat),
        other ≠ k →
        ((FixedWindow.handleRateLimiting m k limit windowMs now).2) other = m other)
    ∧ (∀ (m : FixedWindow.FWMap) (ip sessionId : String)
          (ipLimit sessionLimit windowMs now : Nat),
        (FixedWindow.handleRateLimiting m ip ipLimit windowMs now).1 = true →
        FixedWindow.rateLimit m ip sessionId ipLimit sessionLimit windowMs now
          = (some FixedWindow.LimitTag.byIp,
             (FixedWindow.handleRateLimiting m ip ipLimit windowMs now).2))
    ∧ (∀ (m : FixedWindow.FWMap) (ip sessionId : String)
          (ipLimit sessionLimit windowMs now : Nat),
        (FixedWindow.handleRateLimiting m ip ipLimit windowMs now).1 = false →
        (FixedWindow.handleRateLimiting
            (FixedWindow.handleRateLimiting m ip ipLimit windowMs now).2
            sessionId sessionLimit windowMs now).1 = true →
        FixedWindow.rateLimit m ip sessionId ipLimit sessionLimit windowMs now
          = (some FixedWindow.LimitTag.bySession,
             (FixedWindow.handleRateLimiting
                (FixedWindow.handleRateLimiting m ip ipLimit windowMs now).2
                sessionId sessionLimit windowMs now).2)) := by
  refine ⟨?_, ?_, ?_⟩
  · intro m k other limit windowMs now h
    unfold FixedWindow.handleRateLimiting
    dsimp only
    split <;> split <;> simp [h]
  · intro m ip sessionId ipLimit sessionLimit windowMs now h
    unfold FixedWindow.rateLimit
    dsimp only
    rw [if_pos h]
  · intro m ip sessionId ipLimit sessionLimit windowMs now h1 h2
    unfold FixedWindow.rateLimit
    dsimp only
    rw [if_neg (by rw [h1]; simp : ¬ _), if_pos h2]

/-- Witness for C7 (amended): frame at distinct keys, IP-tagged rejection,
and session-tagged rejection after an IP pass, at concrete keys/limits. -/
theorem C7_dimension_independence_witness :
    ((FixedWindow.handleRateLimiting fwMapW "ip1" 2 1000 500).2) "s1" = fwMapW "s1"
    ∧ FixedWindow.rateLimit fwMapW "ip1" "s1" 2 3 1000 500
        = (some FixedWindow.LimitTag.byIp,
           (FixedWindow.handleRateLimiting fwMapW "ip1" 2 1000 500).2)
    ∧ FixedWindow.rateLimit fwMapW "ip2" "s1" 2 3 1000 500
        = (some FixedWindow.LimitTag.bySession,
           (FixedWindow.handleRateLimiting
              (FixedWindow.handleRateLimiting fwMapW "ip2" 2 1000 500).2
              "s1" 3 1000 500).2) :=
  ⟨C7_dimension_independence.1 fwMapW "ip1" "s1" 2 1000 500 (by decide),
   C7_dimension_independence.2.1 fwMapW "ip1" "s1" 2 3 1000 500 (by decide),
   C7_dimension_independence.2.2 fwMapW "ip2" "s1" 2 3 1000 500 (by decide) (by decide)⟩

